import Mathlib

/-
Verification of the SignSpeak sign-buffering and translation-dispatch
pipeline (src/services/geminiService.js) and the heuristic sign
recognizer (src/services/signRecognition.js).

Timestamps are modelled as Nat milliseconds.  JavaScript computes
`now - lastSignTime < 3000` on possibly-negative differences; with Nat
truncated subtraction a clock step backwards yields 0 < 3000, which is
true exactly as the negative JS difference is, so the Nat model agrees
with the source on all inputs.
-/

/-- Translation result record as built by geminiService.js.
The `displaySigns` field is absent on results coming straight out of
translateSignSequence and is attached by the flush callback, hence an
Option. -/
structure TranslationResult where
  success : Bool
  translation : String
  originalSigns : List String
  displaySigns : Option (List String)
  method : String
  error : Option String
deriving DecidableEq, Repr

/-- Space join of the token list, as signs.join(' ') in the source. -/
def joinSpace (signs : List String) : String :=
  String.intercalate " " signs

/-- translateSignSequence from geminiService.js.  The external Gemini
call is an external collaborator; it is passed in as `backend`, which
either returns the raw response text or fails with an error message.
On success the source trims the response text and marks
method 'gemini-context'; on any failure it falls back to the direct
join and marks method 'fallback-direct', success false, recording
error.message. -/
def translateSignSequence (backend : List String → Except String String)
    (signs : List String) : TranslationResult :=
  match backend signs with
  | Except.ok raw =>
      { success := true
        translation := raw.trim
        originalSigns := signs
        displaySigns := none
        method := "gemini-context"
        error := none }
  | Except.error msg =>
      { success := false
        translation := joinSpace signs
        originalSigns := signs
        displaySigns := none
        method := "fallback-direct"
        error := some msg }

/-- Module-level mutable state of geminiService.js: the sign buffer,
the time of the last accepted sign, the pending flush timer (modelled
as its absolute fire time), and a log of the results delivered to the
flush callback, each tagged with the time the timer fired. -/
structure BufState where
  signBuffer : List String
  lastSignTime : Nat
  bufferTimer : Option Nat
  dispatches : List (Nat × TranslationResult)
deriving DecidableEq, Repr

/-- Initial module state: empty buffer, lastSignTime 0, no timer. -/
def initState : BufState :=
  { signBuffer := [], lastSignTime := 0, bufferTimer := none, dispatches := [] }

/-- addSignToBuffer from geminiService.js, state-passing style.  The
source first rejects a sign equal to the last buffer entry when seen
within 3000 ms of the last accepted sign, then rejects a sign equal to
the last buffer entry unconditionally; otherwise it appends the sign,
records the time, cancels any pending timer and schedules a flush
4000 ms ahead.  It returns a snapshot copy of the buffer in all cases
(paired here with the successor state). -/
def addSignToBuffer (s : BufState) (signName : String) (now : Nat) :
    List String × BufState :=
  if s.signBuffer.length > 0 ∧ s.signBuffer.getLast? = some signName ∧
      now - s.lastSignTime < 3000 then
    (s.signBuffer, s)
  else if s.signBuffer.length > 0 ∧ s.signBuffer.getLast? = some signName then
    (s.signBuffer, s)
  else
    let newBuf := s.signBuffer ++ [signName]
    (newBuf,
      { signBuffer := newBuf
        lastSignTime := now
        bufferTimer := some (now + 4000)
        dispatches := s.dispatches })

/-- The result delivered on flush: in direct mode the source joins the
snapshot with spaces and marks method 'direct'; in Gemini mode it runs
translateSignSequence and then attaches displaySigns. -/
def flushResult (useGemini : Bool)
    (backend : List String → Except String String)
    (signs : List String) : TranslationResult :=
  if useGemini then
    let r := translateSignSequence backend signs
    { r with displaySigns := some signs }
  else
    { success := true
      translation := joinSpace signs
      originalSigns := signs
      displaySigns := some signs
      method := "direct"
      error := none }

/-- The timer callback of addSignToBuffer firing at time ft: when the
buffer is non-empty it snapshots the buffer, clears it, and delivers
the flush result to the callback; when empty it does nothing.  A fired
timer is spent, so bufferTimer becomes none. -/
def flushFire (useGemini : Bool)
    (backend : List String → Except String String)
    (ft : Nat) (s : BufState) : BufState :=
  if s.signBuffer.length > 0 then
    { signBuffer := []
      lastSignTime := s.lastSignTime
      bufferTimer := none
      dispatches := s.dispatches ++ [(ft, flushResult useGemini backend s.signBuffer)] }
  else
    { s with bufferTimer := none }

/-- clearSignBuffer from geminiService.js: empties the buffer and
cancels any pending timer; nothing is dispatched. -/
def clearSignBuffer (s : BufState) : BufState :=
  { s with signBuffer := [], bufferTimer := none }

/-- getSignBuffer from geminiService.js: a snapshot of the buffer. -/
def getSignBuffer (s : BufState) : List String :=
  s.signBuffer

/-- Placeholder backend for direct-mode traces; flushFire false ignores
its backend argument. -/
def noBackend : List String → Except String String :=
  fun _ => Except.error "unused"

/-- External events driving the pipeline: a detection accepted up to
the stability filter, or a manual clear. -/
inductive PipeEvent where
  | detect (label : String)
  | clear
deriving DecidableEq, Repr

/-- Fire the pending timer if it is due at or before time t (the
single-threaded event queue runs a due timer callback before a later
event). -/
def deliverDue (s : BufState) (t : Nat) : BufState :=
  match s.bufferTimer with
  | some ft => if ft ≤ t then flushFire false noBackend ft s else s
  | none => s

/-- One event step of the direct-mode pipeline at its timestamp. -/
def stepD (s : BufState) (e : Nat × PipeEvent) : BufState :=
  match e.2 with
  | PipeEvent.detect l => (addSignToBuffer (deliverDue s e.1) l e.1).2
  | PipeEvent.clear => clearSignBuffer (deliverDue s e.1)

/-- After the last event, wait long enough for any pending timer to
fire at its scheduled time. -/
def settle (s : BufState) : BufState :=
  match s.bufferTimer with
  | some ft => flushFire false noBackend ft s
  | none => s

/-- Run the direct-mode pipeline from the initial state over a list of
timestamped events, then let any pending timer fire. -/
def runD (es : List (Nat × PipeEvent)) : BufState :=
  settle (es.foldl stepD initState)

/-- Detection events for the given labels starting at t0, spaced gap
milliseconds apart. -/
def detectionsFrom (t0 gap : Nat) : List String → List (Nat × PipeEvent)
  | [] => []
  | l :: ls => (t0, PipeEvent.detect l) :: detectionsFrom (t0 + gap) gap ls

/-- Hand features consumed by recognizeSign in signRecognition.js
(the destructured fields). -/
structure HandFeatures where
  thumbExtended : Bool
  indexExtended : Bool
  middleExtended : Bool
  ringExtended : Bool
  pinkyExtended : Bool
  extendedCount : Nat
deriving DecidableEq, Repr

/-- Recognition result: sign key, display name, and confidence in
hundredths (the source uses decimal literals 0.85 etc. only as opaque
scores; no arithmetic is performed on them). -/
structure RecogResult where
  sign : Option String
  name : Option String
  confidence : Nat
deriving DecidableEq, Repr

/-- recognizeSign from signRecognition.js: the ordered decision table
over finger-extension booleans and the extended-finger count. -/
def recognizeSign : Option HandFeatures → RecogResult
  | none => { sign := none, name := none, confidence := 0 }
  | some f =>
    if f.extendedCount = 0 then
      { sign := some "STOP", name := some "Stop", confidence := 85 }
    else if f.thumbExtended && !f.indexExtended && !f.middleExtended &&
        !f.ringExtended && !f.pinkyExtended then
      { sign := some "YES", name := some "Yes", confidence := 90 }
    else if !f.thumbExtended && f.indexExtended && !f.middleExtended &&
        !f.ringExtended && !f.pinkyExtended then
      { sign := some "ONE", name := some "One (1)", confidence := 85 }
    else if f.indexExtended && f.middleExtended && !f.ringExtended &&
        !f.pinkyExtended then
      { sign := some "PEACE", name := some "Peace", confidence := 85 }
    else if f.thumbExtended && f.indexExtended && f.middleExtended &&
        !f.ringExtended && !f.pinkyExtended then
      { sign := some "THREE", name := some "Three (3)", confidence := 85 }
    else if !f.thumbExtended && f.indexExtended && f.middleExtended &&
        f.ringExtended && f.pinkyExtended then
      { sign := some "FOUR", name := some "Four (4)", confidence := 85 }
    else if f.thumbExtended && f.indexExtended && f.middleExtended &&
        f.ringExtended && f.pinkyExtended then
      { sign := some "HELLO", name := some "Hello", confidence := 85 }
    else if f.extendedCount = 1 && f.thumbExtended then
      { sign := some "YES", name := some "Yes", confidence := 70 }
    else if 5 ≤ f.extendedCount then
      { sign := some "HELLO", name := some "Hello", confidence := 70 }
    else
      { sign := none, name := none, confidence := 0 }

/- Basic lemmas about the stability filter. -/

theorem addSign_reject (s : BufState) (l : String) (t : Nat)
    (h : s.signBuffer.getLast? = some l) :
    addSignToBuffer s l t = (s.signBuffer, s) := by
  have hne : s.signBuffer ≠ [] := by
    intro he
    rw [he] at h
    simp at h
  have hlen : s.signBuffer.length > 0 := List.length_pos.mpr hne
  unfold addSignToBuffer
  by_cases h3 : t - s.lastSignTime < 3000
  · rw [if_pos ⟨hlen, h, h3⟩]
  · rw [if_neg (fun hc => h3 hc.2.2), if_pos ⟨hlen, h⟩]

theorem addSign_accept (s : BufState) (l : String) (t : Nat)
    (h : s.signBuffer.getLast? ≠ some l) :
    addSignToBuffer s l t =
      (s.signBuffer ++ [l],
        { signBuffer := s.signBuffer ++ [l]
          lastSignTime := t
          bufferTimer := some (t + 4000)
          dispatches := s.dispatches }) := by
  unfold addSignToBuffer
  rw [if_neg (fun hc => h hc.2.1), if_neg (fun hc => h hc.2)]

theorem getLast?_append_singleton (xs : List String) (x : String) :
    (xs ++ [x]).getLast? = some x := by
  simp

theorem deliverDue_none (s : BufState) (t : Nat) (h : s.bufferTimer = none) :
    deliverDue s t = s := by
  unfold deliverDue
  rw [h]

theorem deliverDue_notDue (s : BufState) (t ft : Nat)
    (h : s.bufferTimer = some ft) (h2 : ¬ ft ≤ t) :
    deliverDue s t = s := by
  unfold deliverDue
  rw [h]
  exact if_neg h2

theorem stepD_spaced (ls : List String) :
    ∀ (s : BufState) (lab : String),
    s.signBuffer.getLast? = some lab →
    s.bufferTimer = some (s.lastSignTime + 4000) →
    List.Chain' Ne (lab :: ls) →
    (detectionsFrom (s.lastSignTime + 2000) 2000 ls).foldl stepD s =
      { signBuffer := s.signBuffer ++ ls
        lastSignTime := s.lastSignTime + 2000 * ls.length
        bufferTimer := some (s.lastSignTime + 2000 * ls.length + 4000)
        dispatches := s.dispatches } := by
  induction ls with
  | nil =>
    intro s lab _ h2 _
    obtain ⟨buf, lt, tm, d⟩ := s
    simp only [BufState.bufferTimer] at h2
    subst h2
    simp [detectionsFrom]
  | cons l ls ih =>
    intro s lab h1 h2 hch
    obtain ⟨hlabne, hch'⟩ := List.chain'_cons.mp hch
    have hdel : deliverDue s (s.lastSignTime + 2000) = s := by
      apply deliverDue_notDue s _ _ h2
      omega
    have hacc : addSignToBuffer s l (s.lastSignTime + 2000) =
        (s.signBuffer ++ [l],
          { signBuffer := s.signBuffer ++ [l]
            lastSignTime := s.lastSignTime + 2000
            bufferTimer := some (s.lastSignTime + 2000 + 4000)
            dispatches := s.dispatches }) := by
      apply addSign_accept
      rw [h1]
      intro hc
      exact hlabne (Option.some.inj hc)
    have hstep : stepD s (s.lastSignTime + 2000, PipeEvent.detect l) =
        { signBuffer := s.signBuffer ++ [l]
          lastSignTime := s.lastSignTime + 2000
          bufferTimer := some (s.lastSignTime + 2000 + 4000)
          dispatches := s.dispatches } := by
      simp only [stepD, hdel, hacc]
    have hih := ih
      { signBuffer := s.signBuffer ++ [l]
        lastSignTime := s.lastSignTime + 2000
        bufferTimer := some (s.lastSignTime + 2000 + 4000)
        dispatches := s.dispatches } l
      (getLast?_append_singleton s.signBuffer l) rfl hch'
    simp only [detectionsFrom, List.foldl_cons, hstep]
    simp only at hih
    rw [hih]
    simp only [List.append_assoc, List.singleton_append, List.length_cons]
    have harith : s.lastSignTime + 2000 + 2000 * ls.length =
        s.lastSignTime + 2000 * (ls.length + 1) := by ring
    rw [harith]

theorem chain_addSign (s : BufState) (l : String) (t : Nat)
    (h : List.Chain' Ne s.signBuffer) :
    List.Chain' Ne (addSignToBuffer s l t).2.signBuffer := by
  by_cases hl : s.signBuffer.getLast? = some l
  · rw [addSign_reject s l t hl]
    exact h
  · rw [addSign_accept s l t hl]
    rw [List.chain'_append]
    refine ⟨h, List.chain'_singleton l, ?_⟩
    intro x hx y hy
    rw [Option.mem_def] at hx
    simp only [List.head?_cons, Option.mem_def, Option.some.injEq] at hy
    subst hy
    intro heq
    exact hl (heq ▸ hx)

theorem chain_flushFire (g : Bool) (b : List String → Except String String)
    (ft : Nat) (s : BufState) (h : List.Chain' Ne s.signBuffer) :
    List.Chain' Ne (flushFire g b ft s).signBuffer := by
  unfold flushFire
  split
  · exact List.chain'_nil
  · exact h

theorem chain_deliverDue (s : BufState) (t : Nat)
    (h : List.Chain' Ne s.signBuffer) :
    List.Chain' Ne (deliverDue s t).signBuffer := by
  unfold deliverDue
  split
  · split
    · exact chain_flushFire false noBackend _ s h
    · exact h
  · exact h

theorem signBuffer_deliverDue (s : BufState) (t : Nat) :
    (deliverDue s t).signBuffer = s.signBuffer ∨ (deliverDue s t).signBuffer = [] := by
  unfold deliverDue
  split
  · split
    · unfold flushFire
      split
      · exact Or.inr rfl
      · exact Or.inl rfl
    · exact Or.inl rfl
  · exact Or.inl rfl

theorem chain_stepD (s : BufState) (e : Nat × PipeEvent)
    (h : List.Chain' Ne s.signBuffer) :
    List.Chain' Ne (stepD s e).signBuffer := by
  obtain ⟨t, ev⟩ := e
  cases ev with
  | detect l => exact chain_addSign (deliverDue s t) l t (chain_deliverDue s t h)
  | clear => exact List.chain'_nil

theorem chain_foldl (es : List (Nat × PipeEvent)) :
    ∀ s : BufState, List.Chain' Ne s.signBuffer →
    List.Chain' Ne ((es.foldl stepD s).signBuffer) := by
  induction es with
  | nil => intro s h; exact h
  | cons e es ih =>
    intro s h
    exact ih (stepD s e) (chain_stepD s e h)

/-- The property every direct-mode dispatched result satisfies. -/
def GoodLog (s : BufState) : Prop :=
  ∀ p ∈ s.dispatches, p.2.success = true ∧ p.2.method = "direct" ∧
    p.2.translation = joinSpace p.2.originalSigns ∧
    p.2.displaySigns = some p.2.originalSigns ∧ p.2.originalSigns ≠ []

theorem goodLog_flushFire (b : List String → Except String String)
    (ft : Nat) (s : BufState) (h : GoodLog s) :
    GoodLog (flushFire false b ft s) := by
  unfold flushFire
  split
  · next hlen =>
    intro p hp
    simp only [List.mem_append, List.mem_singleton] at hp
    rcases hp with hp | hp
    · exact h p hp
    · subst hp
      refine ⟨rfl, rfl, rfl, rfl, ?_⟩
      exact List.length_pos.mp hlen
  · exact h

theorem goodLog_deliverDue (s : BufState) (t : Nat) (h : GoodLog s) :
    GoodLog (deliverDue s t) := by
  unfold deliverDue
  split
  · split
    · exact goodLog_flushFire noBackend _ s h
    · exact h
  · exact h

theorem addSign_dispatches (s : BufState) (l : String) (t : Nat) :
    (addSignToBuffer s l t).2.dispatches = s.dispatches := by
  unfold addSignToBuffer
  split
  · rfl
  · split <;> rfl

theorem goodLog_stepD (s : BufState) (e : Nat × PipeEvent) (h : GoodLog s) :
    GoodLog (stepD s e) := by
  obtain ⟨t, ev⟩ := e
  cases ev with
  | detect l =>
    have hd := goodLog_deliverDue s t h
    show GoodLog (addSignToBuffer (deliverDue s t) l t).2
    intro p hp
    rw [addSign_dispatches] at hp
    exact hd p hp
  | clear =>
    exact goodLog_deliverDue s t h

theorem goodLog_foldl (es : List (Nat × PipeEvent)) :
    ∀ s : BufState, GoodLog s → GoodLog (es.foldl stepD s) := by
  induction es with
  | nil => intro s h; exact h
  | cons e es ih =>
    intro s h
    exact ih (stepD s e) (goodLog_stepD s e h)

theorem goodLog_settle (s : BufState) (h : GoodLog s) : GoodLog (settle s) := by
  unfold settle
  split
  · exact goodLog_flushFire noBackend _ s h
  · exact h

theorem chain_settle (s : BufState) (h : List.Chain' Ne s.signBuffer) :
    List.Chain' Ne (settle s).signBuffer := by
  unfold settle
  split
  · exact chain_flushFire false noBackend _ s h
  · exact h

/-- C1: when the timer fires with a non-empty buffer, the callback
snapshots the ordered token sequence, clears the live buffer (a
getSignBuffer query right after the flush returns empty, the dispatched
record holds the snapshot), and dispatches exactly that snapshot; when
the buffer is empty at fire time nothing is dispatched. -/
theorem flush_snapshot_clears_and_dispatches (g : Bool)
    (b : List String → Except String String) (ft : Nat) (s : BufState) :
    (s.signBuffer ≠ [] →
      flushFire g b ft s =
        { signBuffer := []
          lastSignTime := s.lastSignTime
          bufferTimer := none
          dispatches := s.dispatches ++ [(ft, flushResult g b s.signBuffer)] } ∧
      getSignBuffer (flushFire g b ft s) = []) ∧
    (s.signBuffer = [] →
      flushFire g b ft s = { s with bufferTimer := none } ∧
      (flushFire g b ft s).dispatches = s.dispatches) := by
  constructor
  · intro hne
    have hlen : s.signBuffer.length > 0 := List.length_pos.mpr hne
    unfold flushFire getSignBuffer
    rw [if_pos hlen]
    exact ⟨rfl, rfl⟩
  · intro he
    have hlen : ¬ s.signBuffer.length > 0 := by simp [he]
    unfold flushFire
    rw [if_neg hlen]
    exact ⟨rfl, rfl⟩

theorem flush_snapshot_clears_and_dispatches_witness :
    flushFire false noBackend 4000
        { signBuffer := ["HELLO", "YES"], lastSignTime := 0,
          bufferTimer := some 4000, dispatches := [] } =
      { signBuffer := [], lastSignTime := 0, bufferTimer := none,
        dispatches := [(4000, flushResult false noBackend ["HELLO", "YES"])] } ∧
    getSignBuffer (flushFire false noBackend 4000
        { signBuffer := ["HELLO", "YES"], lastSignTime := 0,
          bufferTimer := some 4000, dispatches := [] }) = [] :=
  (flush_snapshot_clears_and_dispatches false noBackend 4000
    { signBuffer := ["HELLO", "YES"], lastSignTime := 0,
      bufferTimer := some 4000, dispatches := [] }).1 (by decide)

/-- C2: an accepted append replaces any pending timer with a fresh one
due 4000 ms later; a rejected detection leaves the state (and so the
timer) untouched; and N accepted tokens spaced 2000 ms apart produce
exactly one flush containing all N tokens, firing 4000 ms after the
last accepted append. -/
theorem debounce_restart_single_flush :
    (∀ (s : BufState) (l : String) (t : Nat),
      s.signBuffer.getLast? ≠ some l →
      (addSignToBuffer s l t).2.bufferTimer = some (t + 4000)) ∧
    (∀ (s : BufState) (l : String) (t : Nat),
      s.signBuffer.getLast? = some l →
      addSignToBuffer s l t = (s.signBuffer, s)) ∧
    (∀ (l0 : String) (ls : List String),
      List.Chain' Ne (l0 :: ls) →
      runD (detectionsFrom 0 2000 (l0 :: ls)) =
        { signBuffer := []
          lastSignTime := 2000 * ls.length
          bufferTimer := none
          dispatches := [(2000 * ls.length + 4000,
                          flushResult false noBackend (l0 :: ls))] }) := by
  refine ⟨?_, addSign_reject, ?_⟩
  · intro s l t h
    rw [addSign_accept s l t h]
  · intro l0 ls hch
    have hstep1 : stepD initState (0, PipeEvent.detect l0) =
        { signBuffer := [l0], lastSignTime := 0,
          bufferTimer := some 4000, dispatches := [] } := by
      show (addSignToBuffer (deliverDue initState 0) l0 0).2 = _
      rw [deliverDue_none initState 0 rfl]
      rw [addSign_accept initState l0 0 (by simp [initState])]
      rfl
    have hmain : List.foldl stepD
        { signBuffer := [l0], lastSignTime := 0,
          bufferTimer := some 4000, dispatches := [] }
        (detectionsFrom 2000 2000 ls) =
        { signBuffer := [l0] ++ ls
          lastSignTime := 2000 * ls.length
          bufferTimer := some (2000 * ls.length + 4000)
          dispatches := [] } := by
      have h := stepD_spaced ls
        { signBuffer := [l0], lastSignTime := 0,
          bufferTimer := some 4000, dispatches := [] } l0 (by simp) rfl hch
      simpa using h
    unfold runD
    rw [show detectionsFrom 0 2000 (l0 :: ls) =
        (0, PipeEvent.detect l0) :: detectionsFrom 2000 2000 ls from rfl]
    rw [List.foldl_cons, hstep1, hmain]
    unfold settle flushFire
    simp

theorem debounce_restart_single_flush_witness :
    (addSignToBuffer
        { signBuffer := ["A"], lastSignTime := 0,
          bufferTimer := some 4000, dispatches := [] } "B" 2000).2.bufferTimer =
      some (2000 + 4000) ∧
    addSignToBuffer
        { signBuffer := ["A"], lastSignTime := 0,
          bufferTimer := some 4000, dispatches := [] } "A" 3999 =
      (["A"],
        { signBuffer := ["A"], lastSignTime := 0,
          bufferTimer := some 4000, dispatches := [] }) ∧
    runD (detectionsFrom 0 2000 ["A", "B", "C"]) =
      { signBuffer := [], lastSignTime := 2000 * 2, bufferTimer := none,
        dispatches := [(2000 * 2 + 4000,
                        flushResult false noBackend ["A", "B", "C"])] } :=
  ⟨debounce_restart_single_flush.1
      { signBuffer := ["A"], lastSignTime := 0,
        bufferTimer := some 4000, dispatches := [] } "B" 2000 (by decide),
   debounce_restart_single_flush.2.1
      { signBuffer := ["A"], lastSignTime := 0,
        bufferTimer := some 4000, dispatches := [] } "A" 3999 (by decide),
   debounce_restart_single_flush.2.2 "A" ["B", "C"]
     (List.chain'_cons.mpr ⟨by decide,
        List.chain'_cons.mpr ⟨by decide, List.chain'_singleton "C"⟩⟩)⟩

/-- C3: a detection whose label equals the last buffer entry is
rejected with the state unchanged regardless of elapsed time, and along
any event trace the buffer never holds two adjacent identical
tokens. -/
theorem no_adjacent_duplicates :
    (∀ (s : BufState) (l : String) (t : Nat),
      s.signBuffer.getLast? = some l →
      addSignToBuffer s l t = (s.signBuffer, s)) ∧
    (∀ es : List (Nat × PipeEvent),
      List.Chain' Ne ((es.foldl stepD initState).signBuffer) ∧
      List.Chain' Ne ((runD es).signBuffer)) := by
  refine ⟨addSign_reject, ?_⟩
  intro es
  have h := chain_foldl es initState List.chain'_nil
  exact ⟨h, chain_settle _ h⟩

theorem no_adjacent_duplicates_witness :
    addSignToBuffer
        { signBuffer := ["STOP"], lastSignTime := 0,
          bufferTimer := some 4000, dispatches := [] } "STOP" 9999 =
      (["STOP"],
        { signBuffer := ["STOP"], lastSignTime := 0,
          bufferTimer := some 4000, dispatches := [] }) :=
  no_adjacent_duplicates.1
    { signBuffer := ["STOP"], lastSignTime := 0,
      bufferTimer := some 4000, dispatches := [] } "STOP" 9999 (by decide)

/-- C4 counterexample: accept the label A at time 0, clear the buffer,
then detect A again at time 200, well inside the 3000 ms window since
A was last accepted.  The claim says the event is rejected with the
buffer unchanged; the code accepts it, because both rejection checks
require a non-empty buffer, so the buffer goes from empty to [A]. -/
theorem reject_window_not_session_wide :
    (clearSignBuffer (addSignToBuffer initState "A" 0).2).signBuffer = [] ∧
    (addSignToBuffer
        (clearSignBuffer (addSignToBuffer initState "A" 0).2) "A" 200).2.signBuffer
      = ["A"] ∧
    (200 : Nat) - (addSignToBuffer initState "A" 0).2.lastSignTime < 3000 := by
  decide

/-- C4 amended: the 3000 ms rejection window applies only while the
buffer is non-empty with the detected label as its last entry (the
session keeps a single last-accept timestamp, which is then the time
that label was last accepted); once the buffer has been emptied by a
flush or clear, the next detection is accepted regardless of the
accept history. -/
theorem reject_window_amended (s : BufState) (l : String) (t : Nat)
    (hlast : s.signBuffer.getLast? = some l)
    (_hwin : t - s.lastSignTime < 3000) :
    addSignToBuffer s l t = (s.signBuffer, s) :=
  addSign_reject s l t hlast

theorem reject_window_amended_witness :
    addSignToBuffer
        { signBuffer := ["A"], lastSignTime := 0,
          bufferTimer := some 4000, dispatches := [] } "A" 1000 =
      (["A"],
        { signBuffer := ["A"], lastSignTime := 0,
          bufferTimer := some 4000, dispatches := [] }) :=
  reject_window_amended
    { signBuffer := ["A"], lastSignTime := 0,
      bufferTimer := some 4000, dispatches := [] } "A" 1000 (by decide) (by decide)

/-- C5 counterexample: on backend failure the source marks the result
with method 'fallback-direct', not 'fallback' as the claim states (the
success flag and fallback translation are as claimed). -/
theorem fallback_method_name_cex :
    (translateSignSequence (fun _ => Except.error "network error")
        ["HELLO", "YES"]).method = "fallback-direct" ∧
    ¬ (translateSignSequence (fun _ => Except.error "network error")
        ["HELLO", "YES"]).method = "fallback" ∧
    (translateSignSequence (fun _ => Except.error "network error")
        ["HELLO", "YES"]).success = false := by
  decide

/-- C5 amended: if the backend call fails, the dispatch still resolves
with success false, method 'fallback-direct', translation equal to the
original tokens joined by single spaces, and the failure reason kept in
the error field; the Gemini-mode flush result additionally carries the
snapshot as displaySigns. -/
theorem fallback_amended (backend : List String → Except String String)
    (signs : List String) (msg : String)
    (h : backend signs = Except.error msg) :
    translateSignSequence backend signs =
      { success := false
        translation := joinSpace signs
        originalSigns := signs
        displaySigns := none
        method := "fallback-direct"
        error := some msg } ∧
    flushResult true backend signs =
      { success := false
        translation := joinSpace signs
        originalSigns := signs
        displaySigns := some signs
        method := "fallback-direct"
        error := some msg } := by
  constructor
  · unfold translateSignSequence
    rw [h]
  · unfold flushResult translateSignSequence
    rw [h]
    rfl

theorem fallback_amended_witness :
    translateSignSequence (fun _ => Except.error "timeout") ["I", "HAPPY"] =
      { success := false
        translation := joinSpace ["I", "HAPPY"]
        originalSigns := ["I", "HAPPY"]
        displaySigns := none
        method := "fallback-direct"
        error := some "timeout" } ∧
    flushResult true (fun _ => Except.error "timeout") ["I", "HAPPY"] =
      { success := false
        translation := joinSpace ["I", "HAPPY"]
        originalSigns := ["I", "HAPPY"]
        displaySigns := some ["I", "HAPPY"]
        method := "fallback-direct"
        error := some "timeout" } :=
  fallback_amended (fun _ => Except.error "timeout") ["I", "HAPPY"] "timeout" rfl

/-- C6: clearSignBuffer empties the buffer, cancels the pending timer
and dispatches nothing, and after a clear no timer callback can fire
any more for that generation (delivering any later due time or waiting
for the timer changes nothing). -/
theorem clear_is_silent (s : BufState) (t : Nat) :
    (clearSignBuffer s).signBuffer = [] ∧
    (clearSignBuffer s).bufferTimer = none ∧
    (clearSignBuffer s).dispatches = s.dispatches ∧
    deliverDue (clearSignBuffer s) t = clearSignBuffer s ∧
    settle (clearSignBuffer s) = clearSignBuffer s := by
  refine ⟨rfl, rfl, rfl, ?_, ?_⟩
  · exact deliverDue_none _ t rfl
  · rfl

/-- C7: along any direct-mode trace, every result delivered to the
flush callback has success true, method 'direct', translation equal to
its (non-empty) token snapshot joined by single spaces, and carries the
snapshot as originalSigns and displaySigns. -/
theorem direct_mode_dispatch (es : List (Nat × PipeEvent)) :
    ∀ p ∈ (runD es).dispatches,
      p.2.success = true ∧ p.2.method = "direct" ∧
      p.2.translation = joinSpace p.2.originalSigns ∧
      p.2.displaySigns = some p.2.originalSigns ∧
      p.2.originalSigns ≠ [] := by
  have hinit : GoodLog initState := by
    intro p hp
    exact absurd hp (List.not_mem_nil p)
  exact goodLog_settle _ (goodLog_foldl es initState hinit)

theorem direct_mode_dispatch_witness :
    (flushResult false noBackend ["HI"]).success = true ∧
    (flushResult false noBackend ["HI"]).method = "direct" ∧
    (flushResult false noBackend ["HI"]).translation =
      joinSpace (flushResult false noBackend ["HI"]).originalSigns ∧
    (flushResult false noBackend ["HI"]).displaySigns =
      some (flushResult false noBackend ["HI"]).originalSigns ∧
    (flushResult false noBackend ["HI"]).originalSigns ≠ [] :=
  direct_mode_dispatch [(0, PipeEvent.detect "HI")]
    (4000, flushResult false noBackend ["HI"]) (by decide)

/-- C8: the stability filter is a total function that returns the
buffer contents as they stand after the decision: on acceptance the
returned snapshot is the old buffer extended by the new token, on
rejection the state is untouched and the unchanged buffer is
returned. -/
theorem filter_returns_snapshot (s : BufState) (l : String) (t : Nat) :
    (addSignToBuffer s l t).1 = (addSignToBuffer s l t).2.signBuffer ∧
    ((addSignToBuffer s l t).2.signBuffer = s.signBuffer ++ [l] ∨
      ((addSignToBuffer s l t).2 = s ∧
        (addSignToBuffer s l t).1 = s.signBuffer)) := by
  by_cases hl : s.signBuffer.getLast? = some l
  · rw [addSign_reject s l t hl]
    exact ⟨rfl, Or.inr ⟨rfl, rfl⟩⟩
  · rw [addSign_accept s l t hl]
    exact ⟨rfl, Or.inl rfl⟩

/-- C9: whenever the buffer is empty, the next detection is accepted
for every label and timestamp: the token is appended and the flush
timer is started 4000 ms ahead, because both rejection checks require a
non-empty buffer. -/
theorem empty_buffer_always_accepts (s : BufState) (l : String) (t : Nat)
    (h : s.signBuffer = []) :
    addSignToBuffer s l t =
      ([l],
        { signBuffer := [l], lastSignTime := t,
          bufferTimer := some (t + 4000), dispatches := s.dispatches }) := by
  have hl : s.signBuffer.getLast? ≠ some l := by
    rw [h]
    simp
  rw [addSign_accept s l t hl, h]
  rfl

theorem empty_buffer_always_accepts_witness :
    addSignToBuffer
        (clearSignBuffer (addSignToBuffer initState "A" 0).2) "A" 100 =
      (["A"],
        { signBuffer := ["A"], lastSignTime := 100,
          bufferTimer := some (100 + 4000), dispatches := [] }) :=
  empty_buffer_always_accepts
    (clearSignBuffer (addSignToBuffer initState "A" 0).2) "A" 100 (by decide)

/-- C10: recognizeSign never returns the sign THREE: its branch
(thumb, index and middle extended, ring and pinky not) is shadowed by
the earlier PEACE branch, which matches every such feature vector
irrespective of the thumb. -/
theorem three_branch_unreachable (f : Option HandFeatures) :
    (recognizeSign f).sign ≠ some "THREE" := by
  cases f with
  | none => simp [recognizeSign]
  | some h =>
    obtain ⟨t, i, m, r, p, c⟩ := h
    cases t <;> cases i <;> cases m <;> cases r <;> cases p <;>
      simp [recognizeSign] <;> split_ifs <;> simp
